import Mathlib

/-!
# Verification of the LDCC1 Excel-worksheet-update-and-print-to-PDF engine

Shallow embedding of the PDF/worksheet generator component of
`ldcc1_processor.py` (class `ExcelWorksheetPDFGenerator`): the worksheet
data model, the insertion-row search, the clear-and-write dataset update,
the header update, the generation throttle, and the render entry points.

Modelling conventions:
* A worksheet is a sparse 1-indexed grid of cell values together with a
  merged-membership flag (`openpyxl` returns a read-only `MergedCell` for
  every member of a merged region other than its top-left anchor) and the
  reported `max_row`/`max_column` bounding box.
* Reading a cell is modelled as pure.  Writing a non-empty value extends
  the bounding box, as in `openpyxl`; writing `None` (clearing) leaves it.
* Python exceptions are modelled as `Except` values where a claim depends
  on them; the `try/except` boundaries of the source become `match`es.
* Floats are embedded as integers (no claim depends on float arithmetic),
  and `datetime` values carry their display string.
-/

/-- Value held by one spreadsheet cell: empty (`None`), numeric, text, or
date (the string payload of a date is its display form). -/
inductive CellVal where
  | none
  | num (x : Int)
  | str (s : String)
  | date (d : String)
deriving DecidableEq, Repr

/-- `true` exactly on the empty cell value (`value is None` in the source). -/
def isNoneVal : CellVal → Bool
  | CellVal.none => true
  | _ => false

/-- `true` exactly on string cell values (`isinstance(value, str)`). -/
def isStrVal : CellVal → Bool
  | CellVal.str _ => true
  | _ => false

/-- A worksheet: sparse grid, merged-member flags, reported bounding box.
`merged r c = true` means the cell at `(r, c)` is a non-anchor member of a
merged region (an `openpyxl` `MergedCell`, whose value reads as `None` and
which cannot be written). -/
structure Worksheet where
  cells : Nat → Nat → CellVal
  merged : Nat → Nat → Bool
  maxRow : Nat
  maxCol : Nat

/-- Overwrite the value of cell `(r, c)`.  A non-`None` value extends the
reported bounding box (`openpyxl` grows `max_row`/`max_column` when a cell
is materialised); clearing leaves the reported dimensions unchanged. -/
def setCell (ws : Worksheet) (r c : Nat) (v : CellVal) : Worksheet where
  cells := fun r' c' => if r' = r ∧ c' = c then v else ws.cells r' c'
  merged := ws.merged
  maxRow := if isNoneVal v then ws.maxRow else max ws.maxRow r
  maxCol := if isNoneVal v then ws.maxCol else max ws.maxCol c

/-- Guarded cell write, as inlined at `ldcc1_processor.py:249-254` and
`265-283`: the value is stored only when the target is not a merged-region
member (`str(type(cell)) != "<class 'openpyxl.cell.cell.MergedCell'>"`);
a merged member is skipped silently.  The returned flag reports whether
the write was applied. -/
def writeCell (ws : Worksheet) (r c : Nat) (v : CellVal) : Worksheet × Bool :=
  if ws.merged r c then (ws, false) else (setCell ws r c v, true)

/-- The first-K-columns scan window of `_find_data_start_row`
(`range(1, min(6, worksheet.max_column + 1))`): columns `1..min 5 maxCol`. -/
def scanWindowCols (ws : Worksheet) : List Nat :=
  List.range' 1 (min 5 ws.maxCol)

/-- A row qualifies for insertion when every cell of the scan window is
empty (`ldcc1_processor.py:300-301`). -/
def rowIsEmpty (ws : Worksheet) (r : Nat) : Bool :=
  (scanWindowCols ws).all fun c => isNoneVal (ws.cells r c)

/-- `_find_data_start_row` (`ldcc1_processor.py:295-311`): scan rows
`range(3, max_row + 2)`, i.e. rows `3 .. maxRow + 1`, and return the first
row whose scan window is all empty; if none is found return the default
row 10 (the exception path of the source also returns 10). -/
def findDataStartRow (ws : Worksheet) : Nat :=
  match (List.range' 3 (ws.maxRow - 1)).find? (fun r => rowIsEmpty ws r) with
  | some r => r
  | Option.none => 10

/-- Decidable form of "no qualifying all-empty row exists within the
existing bounds", i.e. in rows `3 .. maxRow` (the claim's hypothesis). -/
def noEmptyRowWithinBounds (ws : Worksheet) : Bool :=
  (List.range' 3 (ws.maxRow - 2)).all fun r => !(rowIsEmpty ws r)

/-- A scalar of the tabular dataset handed to `_update_worksheet_data`:
`null` stands for `NaN`/`None` (skipped by `pd.notna`), and the three
written kinds mirror the coercion chain of `ldcc1_processor.py:270-275`
(`int`/`float` → numeric cell, `datetime` → date cell, else `str(value)`). -/
inductive DataVal where
  | null
  | num (x : Int)
  | date (d : String)
  | str (s : String)
deriving DecidableEq, Repr

/-- The clearing pass of `_update_worksheet_data`
(`ldcc1_processor.py:244-256`): for `clear_row` in
`range(start_row, min(start_row + len(data) + 10, max_row + 1))` and
`clear_col` in `range(1, min(max_column + 1, 13))`, set every non-merged
cell to `None` (merged members are skipped by the inlined type check).
Both range bounds are computed once, from the worksheet as it is on entry,
exactly as Python evaluates `range(...)`. -/
def clearPhase (ws : Worksheet) (startRow nrows : Nat) : Worksheet :=
  let clearEnd := min (startRow + nrows + 10) (ws.maxRow + 1)
  let colEnd := min (ws.maxCol + 1) 13
  (List.range' startRow (clearEnd - startRow)).foldl
    (fun w r =>
      (List.range' 1 (colEnd - 1)).foldl
        (fun w' c => (writeCell w' r c CellVal.none).1) w)
    ws

/-- The writing pass of `_update_worksheet_data`
(`ldcc1_processor.py:259-283`): dataset row `i` goes to worksheet row
`start_row + i`, column index `j` (0-based) to worksheet column `j + 1`;
nulls are skipped (`pd.notna`), every other value is coerced and written
through the merged-cell guard. -/
def writePhase (ws : Worksheet) (startRow : Nat) (data : List (List DataVal)) : Worksheet :=
  data.enum.foldl
    (fun w p =>
      p.2.enum.foldl
        (fun w' q =>
          match q.2 with
          | DataVal.null => w'
          | DataVal.num x => (writeCell w' (startRow + p.1) (q.1 + 1) (CellVal.num x)).1
          | DataVal.date d => (writeCell w' (startRow + p.1) (q.1 + 1) (CellVal.date d)).1
          | DataVal.str s => (writeCell w' (startRow + p.1) (q.1 + 1) (CellVal.str s)).1)
        w)
    ws

/-- `_update_worksheet_data` (`ldcc1_processor.py:234-293`) restricted to
its algorithmic sequence: locate the insertion row, clear the bounded
region, write the dataset. -/
def updateWorksheetData (ws : Worksheet) (data : List (List DataVal)) : Worksheet :=
  let startRow := findDataStartRow ws
  writePhase (clearPhase ws startRow data.length) startRow data

/-- C10: every return path of `_find_data_start_row` yields a row ≥ 3. -/
theorem findDataStartRow_ge_three (ws : Worksheet) : 3 ≤ findDataStartRow ws := by
  unfold findDataStartRow
  cases hfind : (List.range' 3 (ws.maxRow - 1)).find? (fun r => rowIsEmpty ws r) with
  | none => simp
  | some r =>
    have hmem : r ∈ List.range' 3 (ws.maxRow - 1) := List.mem_of_find?_eq_some hfind
    have := (List.mem_range'_1.mp hmem).1
    simpa using this

/-- A worksheet whose scan window is full in every row of the existing
bounds: 20 data rows, 6 columns, every cell of rows 1–20 non-empty, no
merged regions.  Rows beyond `maxRow` are empty, as the `max_row`
bounding-box invariant of the data model dictates. -/
def wsFull : Worksheet where
  cells := fun r c => if r ≤ 20 ∧ c ≤ 6 then CellVal.str "x" else CellVal.none
  merged := fun _ _ => false
  maxRow := 20
  maxCol := 6

/-- C2: the claim (and the source's own comment at
`ldcc1_processor.py:304-307`, and the repository's
`test_infinite_loop_fix.test_data_start_row_fix`) says the scan returns
the fixed default row 10 when no empty row exists within the bounds.  On
a real worksheet the scan range `range(3, max_row + 2)` also probes row
`max_row + 1`, which is empty by the bounding-box invariant, so the
function returns `max_row + 1` — a value that grows with `max_row` — and
the default is unreachable.  Evaluated here at the failing input. -/
theorem findDataStartRow_full_sheet_returns_maxRow_succ :
    noEmptyRowWithinBounds wsFull = true ∧
    wsFull.maxRow = 20 ∧
    findDataStartRow wsFull = 21 ∧
    findDataStartRow wsFull ≠ 10 ∧
    wsFull.maxRow ≤ findDataStartRow wsFull := by
  refine ⟨by decide, rfl, by decide, by decide, by decide⟩

/-- The C1 failing worksheet: rows 1–5 hold data in column 1 (header and
existing records), `maxRow = 5`, `maxCol = 3`, no merged regions. -/
def wsGrowth : Worksheet where
  cells := fun r c => if r ≤ 5 ∧ c = 1 then CellVal.str "x" else CellVal.none
  merged := fun _ _ => false
  maxRow := 5
  maxCol := 3

/-- The C1 dataset: two rows of two numeric columns, no nulls. -/
def dataGrowth : List (List DataVal) :=
  [[DataVal.num 1, DataVal.num 2], [DataVal.num 3, DataVal.num 4]]

/-- C1: the update-and-write sequence is not idempotent.  The first call
finds row 6 empty and writes the dataset at rows 6–7; the second call's
insertion-row scan now finds row 8 as the first empty row (the data just
written blocks row 6), clears nothing that covers rows 6–7, and writes
the dataset again at rows 8–9.  The cell contents after two calls differ
from the contents after one (row 8 gains a duplicate of dataset row 0)
and `max_row` grows from 7 to 9 — contradicting the claim, the source's
own "prevents the infinite appending issue" comments
(`ldcc1_processor.py:244-246, 304-307`), and the growth pattern the
repository's `verify_infinite_loop_fix.py` documents as fixed. -/
theorem updateWorksheetData_not_idempotent :
    (updateWorksheetData wsGrowth dataGrowth).maxRow = 7 ∧
    (updateWorksheetData (updateWorksheetData wsGrowth dataGrowth) dataGrowth).maxRow = 9 ∧
    (updateWorksheetData wsGrowth dataGrowth).cells 6 1 = CellVal.num 1 ∧
    (updateWorksheetData wsGrowth dataGrowth).cells 8 1 = CellVal.none ∧
    (updateWorksheetData (updateWorksheetData wsGrowth dataGrowth) dataGrowth).cells 6 1
      = CellVal.num 1 ∧
    (updateWorksheetData (updateWorksheetData wsGrowth dataGrowth) dataGrowth).cells 8 1
      = CellVal.num 1 := by
  refine ⟨by decide, by decide, by decide, by decide, by decide, by decide⟩

/-- A property stable under every step of a fold is stable under the fold. -/
theorem foldl_preserve {α β : Type _} (P : α → Prop) (f : α → β → α) (l : List β)
    (h : ∀ a x, P a → P (f a x)) : ∀ i, P i → P (l.foldl f i) := by
  induction l with
  | nil => exact fun i hi => hi
  | cons a t ih => exact fun i hi => ih (f i a) (h i a hi)

/-- One guarded write neither touches the value of a merged-member cell
nor alters the merged-membership map. -/
theorem writeCell_fst_merged_invariant (w : Worksheet) (a b : Nat) (v : CellVal)
    (r c : Nat) (hm : w.merged r c = true) :
    (writeCell w a b v).1.cells r c = w.cells r c ∧
    (writeCell w a b v).1.merged = w.merged := by
  unfold writeCell
  by_cases hab : w.merged a b = true
  · simp [hab]
  · simp only [Bool.not_eq_true] at hab
    simp only [hab, Bool.false_eq_true, if_neg, ite_false]
    constructor
    · unfold setCell
      simp only
      by_cases hrc : r = a ∧ c = b
      · exfalso
        rw [hrc.1, hrc.2] at hm
        rw [hm] at hab
        exact Bool.true_eq_false.mp hab
      · rw [if_neg hrc]
    · rfl

/-- The merged-invariance property threaded through the dataset update. -/
def MergedSafe (ws : Worksheet) (r c : Nat) (w : Worksheet) : Prop :=
  w.cells r c = ws.cells r c ∧ w.merged = ws.merged

theorem mergedSafe_writeCell (ws : Worksheet) (r c : Nat)
    (hm : ws.merged r c = true) (w : Worksheet) (a b : Nat) (v : CellVal)
    (hw : MergedSafe ws r c w) : MergedSafe ws r c (writeCell w a b v).1 := by
  have hm' : w.merged r c = true := by rw [hw.2]; exact hm
  obtain ⟨h1, h2⟩ := writeCell_fst_merged_invariant w a b v r c hm'
  exact ⟨h1.trans hw.1, h2.trans hw.2⟩

theorem mergedSafe_clearPhase (ws : Worksheet) (r c : Nat)
    (hm : ws.merged r c = true) (w : Worksheet) (startRow nrows : Nat)
    (hw : MergedSafe ws r c w) : MergedSafe ws r c (clearPhase w startRow nrows) := by
  unfold clearPhase
  refine foldl_preserve (MergedSafe ws r c) _ _ (fun a x ha => ?_) w hw
  exact foldl_preserve (MergedSafe ws r c) _ _
    (fun a' x' ha' => mergedSafe_writeCell ws r c hm a' x x' CellVal.none ha') a ha

theorem mergedSafe_writePhase (ws : Worksheet) (r c : Nat)
    (hm : ws.merged r c = true) (w : Worksheet) (startRow : Nat)
    (data : List (List DataVal))
    (hw : MergedSafe ws r c w) : MergedSafe ws r c (writePhase w startRow data) := by
  unfold writePhase
  refine foldl_preserve (MergedSafe ws r c) _ _ (fun a x ha => ?_) w hw
  refine foldl_preserve (MergedSafe ws r c) _ _ (fun a' x' ha' => ?_) a ha
  cases hx : x'.2 with
  | null => simpa [hx] using ha'
  | num y => simpa [hx] using
      mergedSafe_writeCell ws r c hm a' (startRow + x.1) (x'.1 + 1) (CellVal.num y) ha'
  | date d => simpa [hx] using
      mergedSafe_writeCell ws r c hm a' (startRow + x.1) (x'.1 + 1) (CellVal.date d) ha'
  | str s => simpa [hx] using
      mergedSafe_writeCell ws r c hm a' (startRow + x.1) (x'.1 + 1) (CellVal.str s) ha'

/-- C6: writing to a merged-region member cell is a silent no-op.  The
guarded write returns the worksheet unchanged with `applied = false`, and
the whole dataset-update sequence leaves the member cell's value (hence
the merged region's displayed value, read from the region) untouched.  No
exception is involved: the skip is the non-raising branch of the inlined
type check at `ldcc1_processor.py:268,251`. -/
theorem write_merged_cell_noop (ws : Worksheet) (r c : Nat) (v : CellVal)
    (data : List (List DataVal)) (hm : ws.merged r c = true) :
    writeCell ws r c v = (ws, false) ∧
    (updateWorksheetData ws data).cells r c = ws.cells r c := by
  constructor
  · unfold writeCell
    rw [if_pos hm]
  · unfold updateWorksheetData
    exact (mergedSafe_writePhase ws r c hm _ _ data
      (mergedSafe_clearPhase ws r c hm ws _ _ ⟨rfl, rfl⟩)).1

/-- A small worksheet with a merged region `B3:C4`: anchor `(3, 2)`, the
other three members flagged as merged. -/
def wsMergedDemo : Worksheet where
  cells := fun r c => if r = 3 ∧ c = 2 then CellVal.str "anchor" else CellVal.none
  merged := fun r c => decide ((r = 3 ∧ c = 3) ∨ (r = 4 ∧ c = 2) ∨ (r = 4 ∧ c = 3))
  maxRow := 4
  maxCol := 3

/-- Witness for C6 at the merged member `(3, 3)` of `wsMergedDemo`. -/
theorem write_merged_cell_noop_witness :
    wsMergedDemo.merged 3 3 = true ∧
    (writeCell wsMergedDemo 3 3 (CellVal.num 7) = (wsMergedDemo, false) ∧
     (updateWorksheetData wsMergedDemo dataGrowth).cells 3 3 = wsMergedDemo.cells 3 3) :=
  ⟨by decide, write_merged_cell_noop wsMergedDemo 3 3 (CellVal.num 7) dataGrowth (by decide)⟩

/-- Substring occurrence, the Python `needle in hay` test, computed over
the character lists of the two strings. -/
def occursIn (needle hay : String) : Bool :=
  (List.range (hay.data.length + 1)).any fun i => needle.data.isPrefixOf (hay.data.drop i)

/-- Python's `str.lower()`, character by character. -/
def strLower (s : String) : String := String.mk (s.data.map Char.toLower)

/-- The worksheet a balance-report title is routed to by
`create_balance_report_pdf` (`ldcc1_processor.py:84-115`): the `SUMMARY`
sheet of the client-funds workbook (with or without the updated-balances
flag), or the deposit-and-withdrawal benefits worksheet path. -/
inductive RenderTarget where
  | summarySheet (updatedBalances : Bool)
  | benefitsSheet
deriving DecidableEq, Repr

/-- The title dispatch of `create_balance_report_pdf`: an `elif` chain of
case-insensitive substring tests on the title. -/
def dispatchTarget (title : String) : RenderTarget :=
  if occursIn "before benefits" (strLower title) then RenderTarget.summarySheet false
  else if occursIn "after benefits" (strLower title) then RenderTarget.summarySheet true
  else if occursIn "benefits" (strLower title) then RenderTarget.benefitsSheet
  else RenderTarget.summarySheet false

/-- The collaborators `create_balance_report_pdf` calls into, abstracted
as oracles that either return a boolean or raise (`Except.error`):
`_update_and_print_worksheet excel_file sheet_name updated_balances` and
`_create_benefits_worksheet_pdf`. -/
structure RenderEnv where
  updatePrint : String → String → Bool → Except String Bool
  benefitsPdf : Except String Bool

/-- The client-funds workbook filename fixed in the generator's
constructor (`ldcc1_processor.py:59`). -/
def clientFundsFile : String := "Client Funds spreadsheet.xlsx"

/-- The call `create_balance_report_pdf` makes once the throttle lets it
proceed, routed by `dispatchTarget`. -/
def dispatchRender (env : RenderEnv) (title : String) : Except String Bool :=
  match dispatchTarget title with
  | RenderTarget.summarySheet b => env.updatePrint clientFundsFile "SUMMARY" b
  | RenderTarget.benefitsSheet => env.benefitsPdf

/-- The component boundary of `create_balance_report_pdf`
(`ldcc1_processor.py:65,117-119`): the dispatched call's boolean is
returned as is, and every raised exception is caught, logged, and
converted into `False`. -/
def renderOutcome (env : RenderEnv) (title : String) : Bool :=
  match dispatchRender env title with
  | Except.ok b => b
  | Except.error _ => false

/-- The throttle key `f"{filename}_{title}"` (`ldcc1_processor.py:70`). -/
def pdfKey (filename title : String) : String := filename ++ "_" ++ title

/-- One step of the generation throttle (`ldcc1_processor.py:67-77`).
The counter map sends each key to its call count (0 = absent).  A known
key is incremented and the call is throttled when the new count exceeds 5
(a throttled call logs a warning and short-circuits to success); an
unknown key is recorded with count 1 and the call proceeds.  Returns the
new counter map and whether the call proceeds to a render attempt. -/
def throttleStep (counts : String → Nat) (key : String) : (String → Nat) × Bool :=
  if counts key = 0 then
    (fun k => if k = key then 1 else counts k, true)
  else
    (fun k => if k = key then counts key + 1 else counts k, decide (counts key + 1 ≤ 5))

/-- `create_balance_report_pdf` (`ldcc1_processor.py:63-119`) as a state
transformer on the throttle counter: result is the new counter map, the
returned success boolean, and an instrumentation flag recording whether a
render attempt (the dispatched worksheet update) was made.  A throttled
call makes no attempt and returns `True` "to avoid cascading errors". -/
def createBalanceReportPdf (env : RenderEnv) (counts : String → Nat)
    (filename title : String) : (String → Nat) × Bool × Bool :=
  let s := throttleStep counts (pdfKey filename title)
  (s.1, if s.2 then (renderOutcome env title, true) else (true, false))

/-- `create_reconciliation_pdf` (`ldcc1_processor.py:121-134`): the inner
worksheet update's outcome (an oracle that may raise) is passed through
the same catch-all boundary. -/
def createReconciliationPdf (inner : Except String Bool) : Bool :=
  match inner with
  | Except.ok b => b
  | Except.error _ => false

/-- `n` successive calls to `create_balance_report_pdf` with a fixed
`(filename, title)` key, starting from the empty process-start counter;
collects each call's `(success, renderAttempted)` pair. -/
def balanceCalls (env : RenderEnv) (filename title : String) :
    Nat → ((String → Nat) × List (Bool × Bool))
  | 0 => (fun _ => 0, [])
  | n + 1 =>
    let p := balanceCalls env filename title n
    let q := createBalanceReportPdf env p.1 filename title
    (q.1, p.2 ++ [q.2])

/-- After `n` same-key calls the counter stands at `n`, the step proceeds
exactly while the new count stays within the ceiling. -/
theorem throttleStep_at_count (counts : String → Nat) (key : String) (n : Nat)
    (h : counts key = n) :
    (throttleStep counts key).1 key = n + 1 ∧
    (throttleStep counts key).2 = decide (n < 5) := by
  unfold throttleStep
  rcases Nat.eq_zero_or_pos n with hn | hn
  · subst hn
    rw [h]
    simp
  · have hne : counts key ≠ 0 := by omega
    rw [if_neg hne]
    refine ⟨by simp [h], ?_⟩
    rw [h]
    exact decide_eq_decide.mpr Nat.succ_le_iff

/-- C3: for every fixed `(filename, title)` key, running the generation
entry point `n` times in a row gives a per-key counter equal to `n`
(monotone, never reset within the process), leaves every other key's
counter at zero, and produces exactly a render attempt on each of the
first five calls, while every call from the sixth onward is a successful
no-op: it returns `success = true` without invoking any render strategy
(the warning-logging throttle branch). -/
theorem createBalanceReportPdf_throttle_ceiling (env : RenderEnv)
    (filename title : String) (n : Nat) :
    (balanceCalls env filename title n).1 (pdfKey filename title) = n ∧
    (∀ k, k ≠ pdfKey filename title → (balanceCalls env filename title n).1 k = 0) ∧
    (balanceCalls env filename title n).2 =
      (List.range n).map
        (fun k => if k < 5 then (renderOutcome env title, true) else (true, false)) := by
  induction n with
  | zero => exact ⟨rfl, fun _ _ => rfl, rfl⟩
  | succ n ih =>
    obtain ⟨h1, h2, h3⟩ := ih
    obtain ⟨hs1, hs2⟩ :=
      throttleStep_at_count (balanceCalls env filename title n).1 (pdfKey filename title) n h1
    refine ⟨?_, ?_, ?_⟩
    · show (createBalanceReportPdf env (balanceCalls env filename title n).1 filename title).1
          (pdfKey filename title) = n + 1
      unfold createBalanceReportPdf
      exact hs1
    · intro k hk
      show (createBalanceReportPdf env (balanceCalls env filename title n).1 filename title).1
          k = 0
      unfold createBalanceReportPdf
      simp only
      unfold throttleStep
      by_cases hz : (balanceCalls env filename title n).1 (pdfKey filename title) = 0
      · rw [if_pos hz]
        simp only [if_neg hk]
        exact h2 k hk
      · rw [if_neg hz]
        simp only [if_neg hk]
        exact h2 k hk
    · show (balanceCalls env filename title n).2 ++
          [(createBalanceReportPdf env (balanceCalls env filename title n).1 filename title).2]
          = _
      rw [h3, List.range_succ, List.map_append]
      congr 1
      unfold createBalanceReportPdf
      simp only [hs2, List.map_cons, List.map_nil]
      by_cases h5 : n < 5
      · simp [h5]
      · simp [h5]

/-- C4: the engine entry points only ever return a boolean.  A raised
internal failure is converted by the catch-all boundary into
`success = false` (plus a logged message), a normal completion's boolean
is passed through, and a throttled call short-circuits to `true` without
a render attempt; `create_reconciliation_pdf` behaves the same way.  In
the embedding both entry points are total functions into `Bool`, so no
exception escapes the component boundary. -/
theorem pdf_entry_points_boundary (env : RenderEnv) (counts : String → Nat)
    (filename title : String) :
    (∀ e, dispatchRender env title = Except.error e → renderOutcome env title = false) ∧
    (∀ b, dispatchRender env title = Except.ok b → renderOutcome env title = b) ∧
    ((throttleStep counts (pdfKey filename title)).2 = true →
      (createBalanceReportPdf env counts filename title).2 = (renderOutcome env title, true)) ∧
    ((throttleStep counts (pdfKey filename title)).2 = false →
      (createBalanceReportPdf env counts filename title).2 = (true, false)) ∧
    (∀ e, createReconciliationPdf (Except.error e) = false) ∧
    (∀ b, createReconciliationPdf (Except.ok b) = b) := by
  refine ⟨?_, ?_, ?_, ?_, fun _ => rfl, fun _ => rfl⟩
  · intro e he
    unfold renderOutcome
    rw [he]
  · intro b hb
    unfold renderOutcome
    rw [hb]
  · intro hp
    unfold createBalanceReportPdf
    simp only [hp, if_true]
  · intro hp
    unfold createBalanceReportPdf
    simp only [hp, Bool.false_eq_true, if_false]

/-- An environment in which every collaborator raises. -/
def envFail : RenderEnv where
  updatePrint := fun _ _ _ => Except.error "save failed"
  benefitsPdf := Except.error "save failed"

/-- Witness for C4: with raising collaborators and a fresh counter, the
balance-report entry returns `false` (converted failure, attempt made)
and the reconciliation entry returns `false` on a raising inner call. -/
theorem pdf_entry_points_boundary_witness :
    renderOutcome envFail "Weekly Balance Report" = false ∧
    (createBalanceReportPdf envFail (fun _ => 0) "out.pdf" "Weekly Balance Report").2
      = (false, true) ∧
    createReconciliationPdf (Except.error "io") = false := by
  obtain ⟨h1, _, h3, _, h5, _⟩ :=
    pdf_entry_points_boundary envFail (fun _ => 0) "out.pdf" "Weekly Balance Report"
  have he : renderOutcome envFail "Weekly Balance Report" = false := h1 "save failed" rfl
  refine ⟨he, ?_, h5 "io"⟩
  rw [h3 (by decide), he]

/-- C9: the worksheet targeted by `create_balance_report_pdf` is a
deterministic function of the title.  A title containing "before
benefits" or "after benefits" (case-insensitively) goes to the `SUMMARY`
sheet of the client-funds workbook — the "after benefits" variant with
the updated-balances flag; any other title containing "benefits" goes to
the deposit-and-withdrawal benefits worksheet path; every remaining title
goes to the `SUMMARY` sheet as a generic balance report. -/
theorem dispatchTarget_by_title (title : String) :
    ((occursIn "before benefits" (strLower title)
        || occursIn "after benefits" (strLower title)) = true →
      ∃ b, dispatchTarget title = RenderTarget.summarySheet b) ∧
    (occursIn "before benefits" (strLower title) = true →
      dispatchTarget title = RenderTarget.summarySheet false) ∧
    (occursIn "before benefits" (strLower title) = false →
      occursIn "after benefits" (strLower title) = true →
      dispatchTarget title = RenderTarget.summarySheet true) ∧
    (occursIn "before benefits" (strLower title) = false →
      occursIn "after benefits" (strLower title) = false →
      occursIn "benefits" (strLower title) = true →
      dispatchTarget title = RenderTarget.benefitsSheet) ∧
    (occursIn "before benefits" (strLower title) = false →
      occursIn "after benefits" (strLower title) = false →
      occursIn "benefits" (strLower title) = false →
      dispatchTarget title = RenderTarget.summarySheet false) := by
  refine ⟨?_, ?_, ?_, ?_, ?_⟩
  · intro h
    rcases Bool.or_eq_true_iff.mp h with hb | ha
    · exact ⟨false, by unfold dispatchTarget; rw [if_pos hb]⟩
    · by_cases hb : occursIn "before benefits" (strLower title) = true
      · exact ⟨false, by unfold dispatchTarget; rw [if_pos hb]⟩
      · refine ⟨true, ?_⟩
        unfold dispatchTarget
        rw [if_neg (by simpa using hb), if_pos ha]
  · intro hb
    unfold dispatchTarget
    rw [if_pos hb]
  · intro hb ha
    unfold dispatchTarget
    rw [if_neg (by simp [hb]), if_pos ha]
  · intro hb ha hben
    unfold dispatchTarget
    rw [if_neg (by simp [hb]), if_neg (by simp [ha]), if_pos hben]
  · intro hb ha hben
    unfold dispatchTarget
    rw [if_neg (by simp [hb]), if_neg (by simp [ha]), if_neg (by simp [hben])]

/-- Witness for C9 at four concrete titles, one per branch. -/
theorem dispatchTarget_by_title_witness :
    dispatchTarget "Balances BEFORE Benefits" = RenderTarget.summarySheet false ∧
    dispatchTarget "Balances After Benefits" = RenderTarget.summarySheet true ∧
    dispatchTarget "Benefits Processing" = RenderTarget.benefitsSheet ∧
    dispatchTarget "Monthly Reconciliation" = RenderTarget.summarySheet false :=
  ⟨(dispatchTarget_by_title "Balances BEFORE Benefits").2.1 (by decide),
   (dispatchTarget_by_title "Balances After Benefits").2.2.1 (by decide) (by decide),
   (dispatchTarget_by_title "Benefits Processing").2.2.2.1 (by decide) (by decide) (by decide),
   (dispatchTarget_by_title "Monthly Reconciliation").2.2.2.2 (by decide) (by decide) (by decide)⟩

/-- The three PDF production routines present in the source. -/
inductive Strategy where
  | libreoffice
  | excelLike
  | enhancedFallback
deriving DecidableEq, Repr

/-- `str(cell.value)` with `None` rendered as the empty string, as both
renderers do before drawing (a date's payload is its display string). -/
def cellText (v : CellVal) : String :=
  match v with
  | CellVal.none => ""
  | CellVal.num x => toString x
  | CellVal.date d => d
  | CellVal.str s => s

/-- The >12-character ellipsis truncation of `_excel_like_pdf_generation`
(`ldcc1_processor.py:864-865`). -/
def truncCell (s : String) : String :=
  if s.length > 12 then s.take 12 ++ "..." else s

/-- The text grid `_excel_like_pdf_generation` draws
(`ldcc1_processor.py:847-867`): rows `range(1, min(max_row + 1, 40))`,
columns `range(1, min(max_col + 1, 10))`, each cell stringified and
truncated.  The function draws this grid unconditionally — it has no
emptiness or output-size check — and returns `True` after saving the
canvas (`ldcc1_processor.py:878-881`); only a raised exception yields
`False`, and drawing is total. -/
def excelLikeGrid (ws : Worksheet) : List (List String) :=
  (List.range' 1 (min ws.maxRow 39)).map fun r =>
    (List.range' 1 (min ws.maxCol 9)).map fun c =>
      truncCell (cellText (ws.cells r c))

/-- `_excel_like_pdf_generation` (`ldcc1_processor.py:794-887`): success
flag and the grid written into the PDF. -/
def excelLikePdfGeneration (ws : Worksheet) : Bool × List (List String) :=
  (true, excelLikeGrid ws)

/-- `_print_worksheet_to_pdf` (`ldcc1_processor.py:691-752`), the
engine's render entry, instrumented with the list of strategies it
invokes.  After resolving the worksheet and the destination path
(headless mode keeps the caller's path, as in the repository's runs) it
calls `_excel_like_pdf_generation` directly — line 739 — and returns its
flag; no other strategy is consulted. -/
def printWorksheetToPdf (ws : Worksheet) : Bool × List Strategy :=
  ((excelLikePdfGeneration ws).1, [Strategy.excelLike])

/-- Whether a Python `cell.strip()` is truthy: some non-whitespace
character exists. -/
def hasContent (s : String) : Bool := s.data.any fun ch => !ch.isWhitespace

/-- The row extraction of `_enhanced_fallback_pdf_generation`
(`ldcc1_processor.py:1079-1098`): stringify every cell of rows
`1..max_row`, keep only rows with at least one non-blank cell. -/
def enhancedRows (ws : Worksheet) : List (List String) :=
  (List.range' 1 ws.maxRow).filterMap fun r =>
    let row := (List.range' 1 ws.maxCol).map fun c => cellText (ws.cells r c)
    if row.any hasContent then some row else Option.none

/-- `_enhanced_fallback_pdf_generation` (`ldcc1_processor.py:1058-1202`):
returns `False` when no non-empty row was extracted, otherwise builds the
document and verifies the file exists with size > 1024 bytes
(`ldcc1_processor.py:1100-1102,1190-1196`).  The built file's size is an
oracle parameter. -/
def enhancedFallbackPdfGeneration (ws : Worksheet) (builtSize : Nat) : Bool :=
  if enhancedRows ws = [] then false
  else decide (1024 < builtSize)

/-- The subprocess world `_try_libreoffice_print`
(`ldcc1_processor.py:938-1056`) observes: binary availability, whether
the 120-second bound expired, the conversion's exit code, whether the
same-stem output file appeared, and the size of the final moved PDF. -/
structure LibreEnv where
  available : Bool
  timedOut : Bool
  returncodeZero : Bool
  generatedExists : Bool
  finalSize : Nat

/-- `_try_libreoffice_print`: strategy A.  Unavailable binary, timeout,
non-zero exit, missing output, or a final PDF of ≤ 1024 bytes all yield
`False`; success additionally requires the size verification to pass.
(The function exists in the source but has no caller.) -/
def tryLibreofficePrint (env : LibreEnv) : Bool :=
  if !env.available then false
  else if env.timedOut then false
  else if !env.returncodeZero then false
  else if !env.generatedExists then false
  else decide (1024 < env.finalSize)

/-- Strategy A declares success only with an available binary, no
timeout, exit code 0, an output file present, and more than 1 KB of
output — the bounded-timeout, size-verified contract the specification
describes for it. -/
theorem tryLibreofficePrint_success_size (env : LibreEnv)
    (h : tryLibreofficePrint env = true) :
    env.available = true ∧ env.timedOut = false ∧ env.returncodeZero = true ∧
    env.generatedExists = true ∧ 1024 < env.finalSize := by
  unfold tryLibreofficePrint at h
  by_cases ha : env.available = true
  · by_cases ht : env.timedOut = true
    · rw [ha, ht] at h; simp at h
    · by_cases hr : env.returncodeZero = true
      · by_cases hg : env.generatedExists = true
        · refine ⟨ha, by simpa using ht, hr, hg, ?_⟩
          rw [ha, hr, hg] at h
          simp only [Bool.not_eq_true] at ht
          rw [ht] at h
          simpa using h
        · simp only [Bool.not_eq_true] at hg
          rw [ha, hr, hg] at h
          simp only [Bool.not_eq_true] at ht
          rw [ht] at h
          simp at h
      · simp only [Bool.not_eq_true] at hr
        rw [ha, hr] at h
        simp only [Bool.not_eq_true] at ht
        rw [ht] at h
        simp at h
  · simp only [Bool.not_eq_true] at ha
    rw [ha] at h
    simp at h

/-- C5 counterexample: the claim says every render request attempts
strategy A (the external office-suite conversion) first.  On a concrete
render request over a populated worksheet the engine's render entry
invokes only the internal Excel-like renderer; strategy A is never
attempted. -/
theorem render_request_never_attempts_strategy_A :
    (printWorksheetToPdf wsGrowth).2 = [Strategy.excelLike] ∧
    Strategy.libreoffice ∉ (printWorksheetToPdf wsGrowth).2 := by
  refine ⟨rfl, by decide⟩

/-- C5 amended: for every render request the engine invokes exactly one
strategy, the internal Excel-like renderer; neither the LibreOffice
conversion (which sits uncalled in the source, with its availability
check, bounded timeout and output-size verification) nor the enhanced
fallback is attempted, so no automatic strategy-to-strategy retry
exists on the render path. -/
theorem printWorksheetToPdf_strategies (ws : Worksheet) :
    (printWorksheetToPdf ws).2 = [Strategy.excelLike] ∧
    Strategy.libreoffice ∉ (printWorksheetToPdf ws).2 ∧
    Strategy.enhancedFallback ∉ (printWorksheetToPdf ws).2 := by
  refine ⟨rfl, ?_, ?_⟩ <;> simp [printWorksheetToPdf]

/-- The all-empty worksheet: zero non-empty cells. -/
def wsEmpty : Worksheet where
  cells := fun _ _ => CellVal.none
  merged := fun _ _ => false
  maxRow := 1
  maxCol := 1

/-- C7 counterexample: rendering a worksheet with zero non-empty cells
through the engine's render path returns `success = true` — the live
Excel-like generator draws a contentless grid (here a single empty text
cell) and reports success, it does not return `false`. -/
theorem empty_worksheet_render_returns_true :
    (printWorksheetToPdf wsEmpty).1 = true ∧
    excelLikeGrid wsEmpty = [[""]] := by
  refine ⟨rfl, by decide⟩

/-- C7 amended: the `False`-on-empty behaviour the claim describes lives
in `_enhanced_fallback_pdf_generation` (uncalled by the render path):
for every worksheet with zero non-empty cells it extracts no rows and
returns `success = false`, whatever size the built document would have
had. -/
theorem enhancedFallback_empty_returns_false (ws : Worksheet) (builtSize : Nat)
    (h : ∀ r c, ws.cells r c = CellVal.none) :
    enhancedFallbackPdfGeneration ws builtSize = false := by
  unfold enhancedFallbackPdfGeneration
  have hrows : enhancedRows ws = [] := by
    unfold enhancedRows
    refine List.filterMap_eq_nil_iff.mpr fun r _ => ?_
    have hany : ((List.range' 1 ws.maxCol).map fun c => cellText (ws.cells r c)).any
        hasContent = false := by
      refine List.any_eq_false.mpr fun s hs => ?_
      obtain ⟨c, _, hc⟩ := List.mem_map.mp hs
      rw [← hc, h r c]
      simp [cellText, hasContent]
    simp only [hany]
    simp
  rw [if_pos hrows]

/-- Witness for C7's amended theorem at the empty worksheet. -/
theorem enhancedFallback_empty_returns_false_witness :
    enhancedFallbackPdfGeneration wsEmpty 4096 = false :=
  enhancedFallback_empty_returns_false wsEmpty 4096 (fun _ _ => rfl)

/-- Title-like label keywords of `_update_worksheet_header`
(`ldcc1_processor.py:214`). -/
def headerKeywordsTitle : List String :=
  ["balance", "benefit", "client", "fund", "sheet", "report"]

/-- Date-like label keywords of `_update_worksheet_header`
(`ldcc1_processor.py:221`). -/
def headerKeywordsDate : List String :=
  ["date", "generated", "updated", "time"]

/-- One cell of the header scan (`ldcc1_processor.py:205-223`): a cell
holding a truthy string is checked case-insensitively against the two
keyword lists; a title-keyword hit is overwritten with the title and
stops the current row's column loop (`break`), a date-keyword hit is
overwritten with `Updated: timestamp` and the column loop continues. -/
def headerCellStep (title timestamp : String) (r : Nat)
    (acc : Worksheet × Bool) (c : Nat) : Worksheet × Bool :=
  if acc.2 then acc
  else
    match acc.1.cells r c with
    | CellVal.str s =>
      if s.data.isEmpty then acc
      else if headerKeywordsTitle.any (fun k => occursIn k (strLower s)) then
        (setCell acc.1 r c (CellVal.str title), true)
      else if headerKeywordsDate.any (fun k => occursIn k (strLower s)) then
        (setCell acc.1 r c (CellVal.str ("Updated: " ++ timestamp)), false)
      else acc
    | _ => acc

/-- One row of the header scan: columns 1–5 with the row's break flag. -/
def headerScanRow (title timestamp : String) (w : Worksheet) (r : Nat) : Worksheet :=
  ((List.range' 1 5).foldl (headerCellStep title timestamp r) (w, false)).1

/-- The keyword scan over rows 1–5 × columns 1–5. -/
def headerScan (w : Worksheet) (title timestamp : String) : Worksheet :=
  (List.range' 1 5).foldl (headerScanRow title timestamp) w

/-- `_update_worksheet_header` (`ldcc1_processor.py:201-232`): after the
keyword scan, the fallback header is added exactly when cell `A1` does
not hold a string (`worksheet['A1'].value is None or not isinstance(...,
str)`): `A1` receives the title (as the top-left cell, `A1` is never a
non-anchor merged member) and `A2` receives `Generated: timestamp` — if
`A2` is a merged member the `openpyxl` assignment raises and the
function's catch-all swallows it, leaving `A2` unwritten. -/
def updateWorksheetHeader (ws : Worksheet) (title timestamp : String) : Worksheet :=
  let w := headerScan ws title timestamp
  match w.cells 1 1 with
  | CellVal.str _ => w
  | _ =>
    let w1 := setCell w 1 1 (CellVal.str title)
    if w1.merged 2 1 then w1
    else setCell w1 2 1 (CellVal.str ("Generated: " ++ timestamp))

/-- Whether any cell of the scanned header area (rows 1–5 × columns 1–5)
holds a truthy string containing some known label keyword,
case-insensitively — the trigger condition of the scan. -/
def headerScanHasKeyword (ws : Worksheet) : Bool :=
  (List.range' 1 5).any fun r =>
    (List.range' 1 5).any fun c =>
      match ws.cells r c with
      | CellVal.str s =>
        !s.data.isEmpty &&
          (headerKeywordsTitle.any (fun k => occursIn k (strLower s))
            || headerKeywordsDate.any (fun k => occursIn k (strLower s)))
      | _ => false

/-- A worksheet whose only content is a keyword-free string in `A1`. -/
def wsPlainHeader : Worksheet where
  cells := fun r c => if r = 1 ∧ c = 1 then CellVal.str "hello" else CellVal.none
  merged := fun _ _ => false
  maxRow := 1
  maxCol := 1

/-- C8 counterexample: on a worksheet whose scanned header area contains
no label keyword, the claim says the title and timestamp are written
into the fallback cells `A1`/`A2`.  But the source's fallback condition
tests whether `A1` holds a string, not whether any keyword matched: with
a keyword-free string in `A1`, nothing is written anywhere. -/
theorem header_fallback_not_taken_for_plain_string :
    headerScanHasKeyword wsPlainHeader = false ∧
    (updateWorksheetHeader wsPlainHeader "New Title" "01/10/2025 09:00").cells 1 1
      = CellVal.str "hello" ∧
    (updateWorksheetHeader wsPlainHeader "New Title" "01/10/2025 09:00").cells 2 1
      = CellVal.none := by
  refine ⟨by decide, by decide, by decide⟩

/-- A fold whose every step fixes the initial value returns it. -/
theorem foldl_eq_init {α β : Type _} (f : α → β → α) (i : α) (l : List β)
    (h : ∀ x ∈ l, f i x = i) : l.foldl f i = i := by
  induction l with
  | nil => rfl
  | cons a t ih =>
    rw [List.foldl_cons, h a (List.mem_cons_self a t)]
    exact ih fun x hx => h x (List.mem_cons_of_mem a hx)

/-- When no scanned cell triggers, the keyword scan is the identity. -/
theorem headerScan_id (ws : Worksheet) (title timestamp : String)
    (hk : headerScanHasKeyword ws = false) :
    headerScan ws title timestamp = ws := by
  have hrow := List.any_eq_false.mp hk
  refine foldl_eq_init _ _ _ fun r hr => ?_
  have hcol : ∀ c ∈ List.range' 1 5,
      (match ws.cells r c with
        | CellVal.str s =>
          !s.data.isEmpty &&
            (headerKeywordsTitle.any (fun k => occursIn k (strLower s))
              || headerKeywordsDate.any (fun k => occursIn k (strLower s)))
        | _ => false) = false := by
    intro c hc
    have := hrow r hr
    simp only [Bool.not_eq_true] at this
    exact by simpa using List.any_eq_false.mp this c hc
  unfold headerScanRow
  have hfold : (List.range' 1 5).foldl (headerCellStep title timestamp r) (ws, false)
      = (ws, false) := by
    refine foldl_eq_init _ _ _ fun c hc => ?_
    have htrig := hcol c hc
    unfold headerCellStep
    simp only [if_neg Bool.false_ne_true]
    cases hv : ws.cells r c with
    | str s =>
      rw [hv] at htrig
      have htrig2 : (!s.data.isEmpty &&
          (headerKeywordsTitle.any (fun k => occursIn k (strLower s))
            || headerKeywordsDate.any (fun k => occursIn k (strLower s)))) = false := htrig
      by_cases he : s.data.isEmpty = true
      · simp [he]
      · simp only [Bool.not_eq_true] at he
        rw [he] at htrig2
        simp only [Bool.not_false, Bool.true_and] at htrig2
        have h1 : headerKeywordsTitle.any (fun k => occursIn k (strLower s)) = false :=
          (Bool.or_eq_false_iff.mp htrig2).1
        have h2 : headerKeywordsDate.any (fun k => occursIn k (strLower s)) = false :=
          (Bool.or_eq_false_iff.mp htrig2).2
        simp [he, h1, h2]
    | none => simp [hv]
    | num x => simp [hv]
    | date d => simp [hv]
  rw [hfold]

/-- C8 amended: when no cell of the scanned header area (rows 1–5 ×
columns 1–5) holds a truthy string containing a known label keyword
(case-insensitively), the scan changes nothing; the header update then
writes the title into the fixed fallback cell `A1` and
`Generated: timestamp` into `A2` exactly when `A1` does not already
hold a string value (here with `A2` not a merged member), creating no
rows beyond row 2.  When `A1` holds a keyword-free string, nothing is
written (the counterexample). -/
theorem updateWorksheetHeader_fallback (ws : Worksheet) (title timestamp : String)
    (hk : headerScanHasKeyword ws = false)
    (ha : isStrVal (ws.cells 1 1) = false)
    (hm : ws.merged 2 1 = false) :
    (updateWorksheetHeader ws title timestamp).cells 1 1 = CellVal.str title ∧
    (updateWorksheetHeader ws title timestamp).cells 2 1
      = CellVal.str ("Generated: " ++ timestamp) ∧
    (updateWorksheetHeader ws title timestamp).maxRow = max ws.maxRow 2 := by
  have hm1 : (setCell ws 1 1 (CellVal.str title)).merged 2 1 = false := hm
  unfold updateWorksheetHeader
  simp only [headerScan_id ws title timestamp hk]
  cases hv : ws.cells 1 1 with
  | str s => rw [hv] at ha; simp [isStrVal] at ha
  | none =>
    refine ⟨by simp [hm, setCell], by simp [hm, setCell], ?_⟩
    simp [hm, setCell, isNoneVal]
    omega
  | num x =>
    refine ⟨by simp [hm, setCell], by simp [hm, setCell], ?_⟩
    simp [hm, setCell, isNoneVal]
    omega
  | date d =>
    refine ⟨by simp [hm, setCell], by simp [hm, setCell], ?_⟩
    simp [hm, setCell, isNoneVal]
    omega

/-- Witness for C8's amended theorem on the all-empty worksheet. -/
theorem updateWorksheetHeader_fallback_witness :
    headerScanHasKeyword wsEmpty = false ∧
    isStrVal (wsEmpty.cells 1 1) = false ∧
    ((updateWorksheetHeader wsEmpty "Balance Report" "02/10/2025 10:00").cells 1 1
        = CellVal.str "Balance Report" ∧
      (updateWorksheetHeader wsEmpty "Balance Report" "02/10/2025 10:00").cells 2 1
        = CellVal.str ("Generated: " ++ "02/10/2025 10:00") ∧
      (updateWorksheetHeader wsEmpty "Balance Report" "02/10/2025 10:00").maxRow
        = max wsEmpty.maxRow 2) :=
  ⟨by decide, rfl,
    updateWorksheetHeader_fallback wsEmpty "Balance Report" "02/10/2025 10:00"
      (by decide) rfl rfl⟩
